import Mathlib

/-!
Shallow embedding of the FoddersPlaylistBot posting-queue and vote-driven
moderation engine, for checking the natural-language specification against
the code.

The source of truth is the repository code:
* `src/memebot/services/voting.py` — `VotingService.register_vote` and its
  side-effect helpers `_pin_to_pinterest`, `_save_pin`, `_pin_bad`,
  `_send_to_quarantine`;
* `src/memebot/db.py` — `record_vote`, `aggregate_votes`,
  `get_unposted_item`, `create_post`, `upsert_content_item`,
  `set_pinned`, `set_quarantined`;
* `src/memebot/services/autoposter.py` — `AutoPoster.tick`,
  `AutoPoster._is_within_window`, `AutoPoster._enqueue_item`.

External collaborators (Telegram bot, Pinterest clients, the network) are
modelled by boolean oracles recording whether a given external call would
succeed; the embedding records which side effects are attempted and which
database status writes are executed.
-/

namespace Memebot

/-- Post lifecycle status, the value of the `status` column of the `posts`
table (`db.py`): `pending | posted | pinned | quarantined | failed`. -/
inductive Status where
  | pending
  | posted
  | pinned
  | quarantined
  | failed
deriving DecidableEq, Repr

/-- Python truthiness-based `or` on an optional integer, as in
`post_row["like_threshold"] or 0`: `None` and `0` are falsy. -/
def pyOr (o : Option Int) (d : Int) : Int :=
  match o with
  | none => d
  | some v => if v = 0 then d else v

/-- Python truthiness of an optional string (`if ... and good_board:`):
`None` and the empty string are falsy. -/
def pyTruthy (o : Option String) : Bool :=
  match o with
  | none => false
  | some s => s ≠ ""

/-- The joined row returned by `Database.fetch_post` as consumed by
`VotingService.register_vote` (voting.py lines 49–63): the post's status
and audience size together with the channel's thresholds and board
configuration. Nullable columns are `Option`. -/
structure PostRow where
  status : Status
  audienceSize : Option Nat
  likeThreshold : Option Int
  dislikeThreshold : Option Int
  boardId : Option String
  sectionId : Option String
  badBoardId : Option String
  badSectionId : Option String
deriving DecidableEq, Repr

/-- Oracle for the external collaborators touched by one `register_vote`
call:
* `savePinOk` — the result of `_save_pin` for the good board
  (`False` covers "no Pinterest client configured" and a raising client);
* `savePinBadOk` — the result of `_save_pin` for the bad board (ignored by
  the caller `_pin_bad`);
* `quarantineChatConfigured` — whether `self.quarantine_chat_id` is set;
* `forwardOk` — whether `bot.forward_message` in `_send_to_quarantine`
  succeeds (`False` models the caught `TelegramBadRequest`). -/
structure Env where
  savePinOk : Bool
  savePinBadOk : Bool
  quarantineChatConfigured : Bool
  forwardOk : Bool
deriving DecidableEq, Repr

/-- `audience = post_row["audience_size"] or 0` followed by
`dynamic_threshold = (audience + 1) // 2 if audience else None`
(voting.py lines 55–56). -/
def dynamicThreshold (post : PostRow) : Option Int :=
  let audience := post.audienceSize.getD 0
  if audience ≠ 0 then some ((audience + 1) / 2 : Nat) else none

/-- `manual_like = post_row["like_threshold"] or 0` (voting.py line 57). -/
def manualLike (post : PostRow) : Int := pyOr post.likeThreshold 0

/-- `manual_dislike = post_row["dislike_threshold"] or 0`
(voting.py line 58). -/
def manualDislike (post : PostRow) : Int := pyOr post.dislikeThreshold 0

/-- `like_threshold = manual_like if manual_like > 0 else
(dynamic_threshold or 1)` (voting.py line 59). -/
def likeThresholdUsed (post : PostRow) : Int :=
  if manualLike post > 0 then manualLike post else pyOr (dynamicThreshold post) 1

/-- `dislike_threshold = abs(manual_dislike) if manual_dislike < 0 else
(dynamic_threshold or 1)` (voting.py line 60). -/
def dislikeThresholdUsed (post : PostRow) : Int :=
  if manualDislike post < 0 then |manualDislike post|
  else pyOr (dynamicThreshold post) 1

/-- `net_threshold = manual_dislike or -9999` (voting.py line 61). -/
def netThresholdUsed (post : PostRow) : Int :=
  if manualDislike post = 0 then -9999 else manualDislike post

/-- `good_board = post_row["pinterest_board_id"]`, nulled out when
`status == "pinned"` (voting.py lines 62–65). -/
def goodBoardUsed (post : PostRow) : Option String :=
  if post.status = Status.pinned then none else post.boardId

/-- Observable outcome of one `register_vote` call:
* `action` — the returned `action` value;
* `status` — the post's status as stored in the database afterwards
  (the last of the `set_pinned` / `set_quarantined` writes wins);
* `goodPinAttempted` — `_pin_to_pinterest` (hence `_save_pin` for the good
  board) was invoked;
* `setPinnedExec` / `setQuarantinedExec` — the corresponding
  `Database` status writes were executed;
* `badPinAttempted` — `_save_pin` was invoked for the bad board;
* `quarantineAttempted` — `_send_to_quarantine` was invoked;
* `forwardAttempted` — `bot.forward_message` was invoked. -/
structure ModResult where
  action : Option String
  status : Status
  goodPinAttempted : Bool
  setPinnedExec : Bool
  badPinAttempted : Bool
  quarantineAttempted : Bool
  forwardAttempted : Bool
  setQuarantinedExec : Bool
deriving DecidableEq, Repr

/-- The moderation body of `VotingService.register_vote`
(voting.py lines 46–82), given the post row and the vote aggregates
`(likes, dislikes)` computed by `aggregate_votes` after the vote upsert.

Branches, in source order:
1. `if likes >= like_threshold and good_board:` — invoke
   `_pin_to_pinterest`; on `_save_pin` success it executes `set_pinned`
   and the call sets `action = "pinned"`.
2. `if dislikes >= dislike_threshold and bad_board:` — invoke `_pin_bad`
   (its result and the post status are untouched).
3. `if net_score <= net_threshold and status != "quarantined":` — invoke
   `_send_to_quarantine`: with no quarantine chat configured it executes
   `set_quarantined` directly; otherwise it forwards first and executes
   `set_quarantined` only if the forward succeeded. On success the call
   overwrites `action = "quarantined"`. -/
def register_vote (post : PostRow) (likes dislikes : Nat) (env : Env) :
    ModResult :=
  let netScore : Int := (likes : Int) - (dislikes : Int)
  let promo := decide ((likes : Int) ≥ likeThresholdUsed post)
    && pyTruthy (goodBoardUsed post)
  let pinnedOk := promo && env.savePinOk
  let bad := decide ((dislikes : Int) ≥ dislikeThresholdUsed post)
    && pyTruthy post.badBoardId
  let quarCond := decide (netScore ≤ netThresholdUsed post)
    && decide (post.status ≠ Status.quarantined)
  let quarOk := quarCond && (!env.quarantineChatConfigured || env.forwardOk)
  { action :=
      if quarOk then some "quarantined"
      else if pinnedOk then some "pinned"
      else none
    status :=
      if quarOk then Status.quarantined
      else if pinnedOk then Status.pinned
      else post.status
    goodPinAttempted := promo
    setPinnedExec := pinnedOk
    badPinAttempted := bad
    quarantineAttempted := quarCond
    forwardAttempted := quarCond && env.quarantineChatConfigured
    setQuarantinedExec := quarOk }

/-! ### Spec-side threshold definitions (for refinement claims)

These follow the words of the specification, to be compared with the
definitions read off the source above. -/

/-- Ceiling of `a / 2` on naturals, written from the spec's
`ceil(audience_size / 2)`. -/
def specCeilHalf (a : Nat) : Nat :=
  if a % 2 = 0 then a / 2 else a / 2 + 1

/-- The like threshold as the spec words it: the channel's configured
`like_threshold` when positive, else `ceil(audience_size / 2)` when the
recorded audience size is known and nonzero, else `1` (audience unknown,
or recorded as zero — a zero count is treated as unknown). -/
def specLikeThreshold (post : PostRow) : Int :=
  match post.likeThreshold with
  | some v =>
    if 0 < v then v
    else
      match post.audienceSize with
      | some a => if a = 0 then 1 else (specCeilHalf a : Nat)
      | none => 1
  | none =>
    match post.audienceSize with
    | some a => if a = 0 then 1 else (specCeilHalf a : Nat)
    | none => 1

/-- The quarantine net threshold as the spec words it: the channel's
configured dislike threshold, with zero or unset disabling the branch by
substituting the very negative sentinel `-9999`. -/
def specNetThreshold (post : PostRow) : Int :=
  match post.dislikeThreshold with
  | none => -9999
  | some d => if d = 0 then -9999 else d

/-! ### Scheduler: posting window and tick (autoposter.py) -/

/-- `AutoPoster._is_within_window` (autoposter.py lines 117–124), reduced
to its hour arithmetic: `start`/`end` are the configured posting window
hours and `hour` the current hour in the configured time zone. -/
def is_within_window (startHour endHour hour : Nat) : Bool :=
  if startHour ≤ endHour then
    decide (startHour ≤ hour) && decide (hour < endHour)
  else
    decide (hour ≥ startHour) || decide (hour < endHour)

/-- One channel of a scheduler tick, with oracles for each guard and
fallible step of the per-channel body of `AutoPoster.tick`
(autoposter.py lines 85–115):
* `enabled` — the `channel["enabled"]` guard;
* `cooldownOk` — `now_ts - last >= autopost_interval`;
* `sourceConfigured` — `_build_source_kwargs` returned a value;
* `sourceInitOk` — `_get_or_create_source` did not raise (a raise is
  caught with `continue`);
* `storageOk` — the uncaught database calls of the body
  (`count_pending_posts`, `_ensure_queue`, `_publish_from_queue`) did not
  raise. Content-source `fetch` errors are caught inside `_fetch_items`
  and returned as an empty batch, so they need no oracle here. -/
structure ChanSpec where
  id : Nat
  enabled : Bool
  cooldownOk : Bool
  sourceConfigured : Bool
  sourceInitOk : Bool
  storageOk : Bool
deriving DecidableEq, Repr

/-- `AutoPoster.tick` (autoposter.py lines 81–115) over a list of
channels: returns the ids of the channels whose body ran to completion,
and whether an exception escaped `tick` (to be caught by `_runner`,
autoposter.py lines 71–79). The window check uses the tick-wide `now_dt`,
so it is a single boolean for the whole tick. A channel whose source
initialization raises is skipped (the `except ... continue` at lines
101–103); a storage error propagates out of the `for` loop, so the
remaining channels are not processed this tick. -/
def tick (withinWindow : Bool) : List ChanSpec → List Nat × Bool
  | [] => ([], false)
  | c :: rest =>
    if !c.enabled || !withinWindow || !c.cooldownOk
        || !c.sourceConfigured || !c.sourceInitOk then
      tick withinWindow rest
    else if !c.storageOk then
      ([], true)
    else
      let r := tick withinWindow rest
      (c.id :: r.1, r.2)

/-! ### Item store and enqueue (db.py, autoposter.py) -/

/-- A candidate item as consumed by `AutoPoster._enqueue_item`; the JSON
payload built by `_serialize_item` is modelled as the item value itself. -/
structure Item where
  sourceType : String
  sourceId : String
  mediaUrl : Option String
  videoUrl : Option String
deriving DecidableEq, Repr

/-- A row of the `content_items` table (db.py). -/
structure ContentRec where
  id : Nat
  sourceType : String
  sourceId : String
  payload : Item
deriving DecidableEq, Repr

/-- A row of the `posts` table (db.py), restricted to the columns the
enqueue path touches. -/
structure PostRec where
  id : Nat
  channelId : Nat
  contentItemId : Nat
  status : Status
deriving DecidableEq, Repr

/-- The database state seen by the enqueue path: the `content_items` and
`posts` tables, plus fresh-id counters standing for `AUTOINCREMENT`. -/
structure DBState where
  items : List ContentRec
  posts : List PostRec
  nextItemId : Nat
  nextPostId : Nat
deriving DecidableEq, Repr

/-- `Database.upsert_content_item` (db.py lines 141–154):
`INSERT ... ON CONFLICT(source_type, source_id) DO UPDATE SET
payload=excluded.payload RETURNING id`. -/
def upsert_content_item (db : DBState) (st si : String) (payload : Item) :
    Nat × DBState :=
  match db.items.find? (fun r => r.sourceType == st && r.sourceId == si) with
  | some r =>
    (r.id,
      { db with
        items := db.items.map (fun q =>
          if q.sourceType == st && q.sourceId == si then
            { q with payload := payload }
          else q) })
  | none =>
    (db.nextItemId,
      { db with
        items := db.items ++ [⟨db.nextItemId, st, si, payload⟩]
        nextItemId := db.nextItemId + 1 })

/-- `Database.get_unposted_item` (db.py lines 156–166):
`SELECT id FROM posts WHERE channel_id = ? AND content_item_id = ?` —
note the query has no status filter, so a row in any status matches. -/
def get_unposted_item (db : DBState) (ch ci : Nat) : Option Nat :=
  (db.posts.find? (fun p => p.channelId == ch && p.contentItemId == ci)).map
    (fun p => p.id)

/-- `Database.create_post` (db.py lines 168–181):
`INSERT ... ON CONFLICT(channel_id, content_item_id) DO UPDATE SET
status='pending' RETURNING id`. -/
def create_post (db : DBState) (ch ci : Nat) : Nat × DBState :=
  match db.posts.find? (fun p => p.channelId == ch && p.contentItemId == ci) with
  | some p =>
    (p.id,
      { db with
        posts := db.posts.map (fun q =>
          if q.channelId == ch && q.contentItemId == ci then
            { q with status := Status.pending }
          else q) })
  | none =>
    (db.nextPostId,
      { db with
        posts := db.posts ++ [⟨db.nextPostId, ch, ci, Status.pending⟩]
        nextPostId := db.nextPostId + 1 })

/-- `AutoPoster._enqueue_item` (autoposter.py lines 245–259): reject an
item with neither media URL nor video URL; upsert the content item; if a
post row for `(channel, content_item)` already exists return `False`
without touching it; otherwise create a pending post and return `True`. -/
def enqueue_item (db : DBState) (ch : Nat) (item : Item) : Bool × DBState :=
  if !pyTruthy item.mediaUrl && !pyTruthy item.videoUrl then
    (false, db)
  else
    let r := upsert_content_item db item.sourceType item.sourceId item
    match get_unposted_item r.2 ch r.1 with
    | some _ => (false, r.2)
    | none => (true, (create_post r.2 ch r.1).2)

/-! ### Vote ledger (db.py `record_vote` / `aggregate_votes`)

One post's slice of the `votes` table, as a list of
`(telegram_user_id, vote)` rows in physical order. The table has
`UNIQUE(post_id, telegram_user_id)`, and `record_vote` upserts
(`ON CONFLICT ... DO UPDATE SET vote=excluded.vote`), so a repeat vote
rewrites the existing row in place; a new voter appends a row. -/

/-- The first stored vote value for voter `u`, scanning rows in order
(under unique keys this is the voter's stored value). -/
def lookupVal : List (String × Int) → String → Option Int
  | [], _ => none
  | r :: t, u => if u = r.1 then some r.2 else lookupVal t u

/-- `Database.record_vote` (db.py lines 213–224) restricted to one post:
`INSERT ... ON CONFLICT(post_id, telegram_user_id) DO UPDATE SET
vote=excluded.vote`. -/
def record_vote (t : List (String × Int)) (u : String) (v : Int) :
    List (String × Int) :=
  if t.any (fun r => r.1 = u) then
    t.map (fun r => if r.1 = u then (r.1, v) else r)
  else
    t ++ [(u, v)]

/-- `Database.aggregate_votes` (db.py lines 226–234): likes is the number
of rows with a positive vote value, dislikes the number with a negative
one (the source groups by value and sums the group counts, which counts
the same rows). -/
def aggregate_votes (t : List (String × Int)) : Nat × Nat :=
  (t.countP (fun r => 0 < r.2), t.countP (fun r => r.2 < 0))

/-- Replay a sequence of `(voter, value)` vote events through
`record_vote`, starting from table `t`. -/
def apply_votes (t : List (String × Int)) :
    List (String × Int) → List (String × Int)
  | [] => t
  | r :: rest => apply_votes (record_vote t r.1 r.2) rest

/-- The latest vote value of voter `u` in the event sequence `s`
(the first match scanning from the most recent event). -/
def lastVote (s : List (String × Int)) (u : String) : Option Int :=
  lookupVal s.reverse u

/-! ### Lemmas about the vote ledger -/

lemma lookupVal_append (a b : List (String × Int)) (u : String) :
    lookupVal (a ++ b) u =
      match lookupVal a u with
      | some v => some v
      | none => lookupVal b u := by
  induction a with
  | nil => simp [lookupVal]
  | cons r t ih =>
    by_cases h : u = r.1 <;> simp [lookupVal, h, ih]

lemma lookupVal_eq_none_iff (t : List (String × Int)) (u : String) :
    lookupVal t u = none ↔ u ∉ t.map Prod.fst := by
  induction t with
  | nil => simp [lookupVal]
  | cons r t ih =>
    by_cases h : u = r.1 <;> simp [lookupVal, h, ih]

lemma any_key_iff (t : List (String × Int)) (u : String) :
    (t.any fun r => r.1 = u) = true ↔ u ∈ t.map Prod.fst := by
  simp [List.any_eq_true, List.mem_map]

lemma lookup_map_update (t : List (String × Int)) (u k : String) (v : Int) :
    lookupVal (t.map fun r => if r.1 = k then (r.1, v) else r) u =
      if u = k then (lookupVal t u).map (fun _ => v) else lookupVal t u := by
  induction t with
  | nil => simp [lookupVal]
  | cons r t ih =>
    simp only [List.map_cons]
    by_cases hrk : r.1 = k
    · rw [if_pos hrk]
      by_cases hur : u = r.1
      · have huk : u = k := hur.trans hrk
        simp [lookupVal, hur, huk, hrk]
      · have huk : ¬u = k := fun h => hur (h.trans hrk.symm)
        simp [lookupVal, hur, huk, ih]
    · rw [if_neg hrk]
      by_cases hur : u = r.1
      · have huk : ¬u = k := fun h => hrk (hur.symm.trans h)
        simp [lookupVal, hur, huk, hrk]
      · simp [lookupVal, hur, ih]

lemma lookupVal_record_vote (t : List (String × Int)) (u k : String) (v : Int) :
    lookupVal (record_vote t k v) u = if u = k then some v else lookupVal t u := by
  unfold record_vote
  by_cases hany : (t.any fun r => r.1 = k) = true
  · rw [if_pos hany, lookup_map_update]
    by_cases huk : u = k
    · subst huk
      have hmem : u ∈ t.map Prod.fst := (any_key_iff t u).mp hany
      have : lookupVal t u ≠ none := fun h => ((lookupVal_eq_none_iff t u).mp h) hmem
      cases hl : lookupVal t u with
      | none => exact absurd hl this
      | some w => simp [hl]
    · simp [huk]
  · rw [if_neg hany, lookupVal_append]
    have hnone : lookupVal t k = none :=
      (lookupVal_eq_none_iff t k).mpr (fun hm => hany ((any_key_iff t k).mpr hm))
    by_cases huk : u = k
    · subst huk; simp [hnone, lookupVal]
    · cases hl : lookupVal t u with
      | none => simp [lookupVal, huk]
      | some w => simp [huk]

lemma lookupVal_apply_votes (s : List (String × Int)) :
    ∀ (t : List (String × Int)) (u : String),
      lookupVal (apply_votes t s) u =
        match lastVote s u with
        | some w => some w
        | none => lookupVal t u := by
  induction s with
  | nil => intro t u; simp [apply_votes, lastVote, lookupVal]
  | cons r rest ih =>
    intro t u
    have hrev : lastVote (r :: rest) u =
        match lastVote rest u with
        | some w => some w
        | none => lookupVal [r] u := by
      simp only [lastVote, List.reverse_cons]
      exact lookupVal_append rest.reverse [r] u
    simp only [apply_votes, ih, hrev]
    cases hl : lastVote rest u with
    | some w => simp
    | none =>
      simp only []
      rw [lookupVal_record_vote]
      by_cases huk : u = r.1 <;> simp [lookupVal, huk]

lemma keys_record_vote (t : List (String × Int)) (k : String) (v : Int) :
    (record_vote t k v).map Prod.fst =
      if (t.any fun r => r.1 = k) = true then t.map Prod.fst
      else t.map Prod.fst ++ [k] := by
  unfold record_vote
  by_cases hany : (t.any fun r => r.1 = k) = true
  · rw [if_pos hany, if_pos hany, List.map_map]
    congr 1
    funext r
    by_cases h : r.1 = k <;> simp [h]
  · rw [if_neg hany, if_neg hany, List.map_append]
    rfl

lemma mem_keys_record_vote (t : List (String × Int)) (k : String) (v : Int)
    (u : String) :
    u ∈ (record_vote t k v).map Prod.fst ↔ u ∈ t.map Prod.fst ∨ u = k := by
  rw [keys_record_vote]
  by_cases hany : (t.any fun r => r.1 = k) = true
  · have hmem : k ∈ t.map Prod.fst := (any_key_iff t k).mp hany
    rw [if_pos hany]
    constructor
    · exact Or.inl
    · rintro (h | h)
      · exact h
      · exact h ▸ hmem
  · rw [if_neg hany]
    simp

lemma nodup_keys_record_vote (t : List (String × Int)) (k : String) (v : Int)
    (h : (t.map Prod.fst).Nodup) :
    ((record_vote t k v).map Prod.fst).Nodup := by
  rw [keys_record_vote]
  by_cases hany : (t.any fun r => r.1 = k) = true
  · rw [if_pos hany]; exact h
  · rw [if_neg hany]
    have hk : k ∉ t.map Prod.fst := fun hm => hany ((any_key_iff t k).mpr hm)
    simp only [List.nodup_append, List.nodup_cons, List.not_mem_nil,
      not_false_iff, List.nodup_nil, and_true, true_and]
    refine ⟨h, ?_⟩
    intro a ha hb
    simp only [List.mem_singleton] at hb
    exact hk (hb ▸ ha)

lemma mem_keys_apply_votes (s : List (String × Int)) :
    ∀ (t : List (String × Int)) (u : String),
      u ∈ (apply_votes t s).map Prod.fst ↔
        u ∈ t.map Prod.fst ∨ u ∈ s.map Prod.fst := by
  induction s with
  | nil => intro t u; simp [apply_votes]
  | cons r rest ih =>
    intro t u
    simp only [apply_votes, ih, mem_keys_record_vote, List.map_cons,
      List.mem_cons]
    tauto

lemma nodup_keys_apply_votes (s : List (String × Int)) :
    ∀ (t : List (String × Int)), (t.map Prod.fst).Nodup →
      ((apply_votes t s).map Prod.fst).Nodup := by
  induction s with
  | nil => intro t h; exact h
  | cons r rest ih =>
    intro t h
    exact ih _ (nodup_keys_record_vote t r.1 r.2 h)

lemma countP_eq_keys_countP (q : Int → Bool) :
    ∀ t : List (String × Int), (t.map Prod.fst).Nodup →
      t.countP (fun r => q r.2) =
        (t.map Prod.fst).countP (fun u =>
          match lookupVal t u with | some w => q w | none => false) := by
  intro t
  induction t with
  | nil => intro _; simp
  | cons r t ih =>
    intro h
    simp only [List.map_cons, List.nodup_cons] at h
    obtain ⟨hr, ht⟩ := h
    rw [List.countP_cons, List.map_cons, List.countP_cons, ih ht]
    have hhead :
        (match lookupVal (r :: t) r.1 with | some w => q w | none => false) =
          q r.2 := by
      simp [lookupVal]
    have htail : (t.map Prod.fst).countP (fun u =>
          match lookupVal t u with | some w => q w | none => false) =
        (t.map Prod.fst).countP (fun u =>
          match lookupVal (r :: t) u with | some w => q w | none => false) := by
      apply List.countP_congr
      intro u hu
      have hne : ¬u = r.1 := fun he => hr (he ▸ hu)
      simp [lookupVal, hne]
    rw [htail, hhead]

lemma countP_eq_of_nodup_mem_iff {l1 l2 : List String} (p : String → Bool)
    (h1 : l1.Nodup) (h2 : l2.Nodup) (hm : ∀ x, x ∈ l1 ↔ x ∈ l2) :
    l1.countP p = l2.countP p :=
  ((List.perm_ext_iff_of_nodup h1 h2).mpr hm).countP_eq p

lemma record_vote_append_of_not_mem (t : List (String × Int)) (k : String)
    (v : Int) (h : k ∉ t.map Prod.fst) :
    record_vote t k v = t ++ [(k, v)] := by
  unfold record_vote
  rw [if_neg (fun hany => h ((any_key_iff t k).mp hany))]

lemma apply_votes_eq_append (s : List (String × Int)) :
    ∀ t : List (String × Int),
      (∀ u ∈ s.map Prod.fst, u ∉ t.map Prod.fst) →
      (s.map Prod.fst).Nodup →
      apply_votes t s = t ++ s := by
  induction s with
  | nil => intro t _ _; simp [apply_votes]
  | cons r rest ih =>
    intro t hdisj hnd
    simp only [List.map_cons, List.nodup_cons] at hnd
    obtain ⟨hrk, hnd'⟩ := hnd
    have hk : r.1 ∉ t.map Prod.fst :=
      hdisj r.1 (by simp)
    simp only [apply_votes]
    rw [record_vote_append_of_not_mem t r.1 r.2 hk]
    have : apply_votes (t ++ [(r.1, r.2)]) rest = (t ++ [(r.1, r.2)]) ++ rest := by
      apply ih
      · intro u hu
        simp only [List.map_append, List.mem_append, List.map_cons,
          List.mem_singleton, List.map_nil, List.mem_cons]
        rintro (h | h)
        · exact hdisj u (by simp [hu]) h
        · simp only [List.map_cons, List.map_nil, List.mem_cons,
            List.not_mem_nil, or_false] at h
          exact hrk (h ▸ hu)
      · exact hnd'
    rw [this, List.append_assoc]
    rfl

/-! ### Helper lemmas for the threshold claims -/

lemma specCeilHalf_eq (a : Nat) : specCeilHalf a = (a + 1) / 2 := by
  unfold specCeilHalf
  split <;> omega

lemma likeThresholdUsed_eq_spec (post : PostRow) :
    likeThresholdUsed post = specLikeThreshold post := by
  unfold likeThresholdUsed specLikeThreshold manualLike dynamicThreshold pyOr
  cases hl : post.likeThreshold with
  | none =>
    cases ha : post.audienceSize with
    | none => simp
    | some a =>
      by_cases h0 : a = 0
      · simp [h0]
      · simp [h0, specCeilHalf_eq]
        omega
  | some v =>
    by_cases hv0 : v = 0
    · cases ha : post.audienceSize with
      | none => simp [hv0]
      | some a =>
        by_cases h0 : a = 0
        · simp [hv0, h0]
        · simp [hv0, h0, specCeilHalf_eq]
          omega
    · by_cases hvpos : v > 0
      · simp [hv0, hvpos]
      · have : ¬0 < v := hvpos
        cases ha : post.audienceSize with
        | none => simp [hv0, hvpos, this]
        | some a =>
          by_cases h0 : a = 0
          · simp [hv0, hvpos, this, h0]
          · simp [hv0, hvpos, this, h0, specCeilHalf_eq]
            omega

lemma netThresholdUsed_eq_spec (post : PostRow) :
    netThresholdUsed post = specNetThreshold post := by
  unfold netThresholdUsed specNetThreshold manualDislike pyOr
  cases post.dislikeThreshold with
  | none => simp
  | some d => by_cases hd : d = 0 <;> simp [hd]

/-! ### Claim theorems -/

/-- Claim C1 — threshold precedence and dynamic fallback: in every
`register_vote` call, the like threshold used by the promotion check
equals the channel's configured `like_threshold` when positive, else
`ceil(audience_size / 2)` when the recorded audience size is known and
nonzero, else `1`; and, with a good board configured and the post not
already pinned, the promotion side effect is attempted exactly when
aggregate likes reach that threshold. -/
theorem register_vote_threshold_precedence :
    ∀ (post : PostRow) (likes dislikes : Nat) (env : Env),
      likeThresholdUsed post = specLikeThreshold post ∧
      (pyTruthy post.boardId = true → post.status ≠ Status.pinned →
        ((register_vote post likes dislikes env).goodPinAttempted = true ↔
          (likes : Int) ≥ specLikeThreshold post)) := by
  intro post likes dislikes env
  refine ⟨likeThresholdUsed_eq_spec post, ?_⟩
  intro hb hs
  simp [register_vote, goodBoardUsed, hs, hb, likeThresholdUsed_eq_spec post]

/-- Witness for C1: with `like_threshold = 0` and `audience_size = 10`,
the threshold in force is `ceil(10/2) = 5` and promotion is attempted at
5 likes. -/
theorem register_vote_threshold_precedence_witness :
    likeThresholdUsed
        { status := Status.posted, audienceSize := some 10,
          likeThreshold := some 0, dislikeThreshold := some (-10),
          boardId := some "board", sectionId := none,
          badBoardId := none, badSectionId := none } =
      specLikeThreshold
        { status := Status.posted, audienceSize := some 10,
          likeThreshold := some 0, dislikeThreshold := some (-10),
          boardId := some "board", sectionId := none,
          badBoardId := none, badSectionId := none } ∧
    ((register_vote
        { status := Status.posted, audienceSize := some 10,
          likeThreshold := some 0, dislikeThreshold := some (-10),
          boardId := some "board", sectionId := none,
          badBoardId := none, badSectionId := none } 5 0
        { savePinOk := true, savePinBadOk := true,
          quarantineChatConfigured := false, forwardOk := true }).goodPinAttempted
        = true ↔
      (5 : Int) ≥ specLikeThreshold
        { status := Status.posted, audienceSize := some 10,
          likeThreshold := some 0, dislikeThreshold := some (-10),
          boardId := some "board", sectionId := none,
          badBoardId := none, badSectionId := none }) :=
  ⟨(register_vote_threshold_precedence _ 5 0
      { savePinOk := true, savePinBadOk := true,
        quarantineChatConfigured := false, forwardOk := true }).1,
   (register_vote_threshold_precedence _ 5 0
      { savePinOk := true, savePinBadOk := true,
        quarantineChatConfigured := false, forwardOk := true }).2
      (by decide) (by decide)⟩

/-- Claim C2 counterexample — the at-most-once promotion guard is only
`status == "pinned"`, and a later quarantine overwrites the status:
call 1 pins the post (the board side effect fires and status becomes
`pinned`); call 2 quarantines it (status becomes `quarantined`); call 3,
with likes still above threshold, invokes the board-promotion side
effect for this post a second time. -/
theorem promotion_refires_after_quarantine :
    (register_vote
        { status := Status.posted, audienceSize := none,
          likeThreshold := some 1, dislikeThreshold := some (-1),
          boardId := some "good", sectionId := none,
          badBoardId := none, badSectionId := none } 1 0
        { savePinOk := true, savePinBadOk := true,
          quarantineChatConfigured := false, forwardOk := true }).status
      = Status.pinned ∧
    (register_vote
        { status := Status.posted, audienceSize := none,
          likeThreshold := some 1, dislikeThreshold := some (-1),
          boardId := some "good", sectionId := none,
          badBoardId := none, badSectionId := none } 1 0
        { savePinOk := true, savePinBadOk := true,
          quarantineChatConfigured := false, forwardOk := true }).setPinnedExec
      = true ∧
    (register_vote
        { status := Status.pinned, audienceSize := none,
          likeThreshold := some 1, dislikeThreshold := some (-1),
          boardId := some "good", sectionId := none,
          badBoardId := none, badSectionId := none } 1 2
        { savePinOk := true, savePinBadOk := true,
          quarantineChatConfigured := false, forwardOk := true }).status
      = Status.quarantined ∧
    (register_vote
        { status := Status.pinned, audienceSize := none,
          likeThreshold := some 1, dislikeThreshold := some (-1),
          boardId := some "good", sectionId := none,
          badBoardId := none, badSectionId := none } 1 2
        { savePinOk := true, savePinBadOk := true,
          quarantineChatConfigured := false, forwardOk := true }).goodPinAttempted
      = false ∧
    (register_vote
        { status := Status.quarantined, audienceSize := none,
          likeThreshold := some 1, dislikeThreshold := some (-1),
          boardId := some "good", sectionId := none,
          badBoardId := none, badSectionId := none } 2 2
        { savePinOk := true, savePinBadOk := true,
          quarantineChatConfigured := false, forwardOk := true }).goodPinAttempted
      = true := by
  decide

/-- Claim C2 amended — promotion is not re-attempted only while the
stored status remains `pinned`: for any `register_vote` call on a post
whose status is `pinned`, the board-promotion side effect is not invoked
and `set_pinned` is not executed. (Once the post is later quarantined,
the status guard no longer applies and promotion can fire again, as the
counterexample shows.) -/
theorem no_promotion_while_pinned :
    ∀ (post : PostRow) (likes dislikes : Nat) (env : Env),
      post.status = Status.pinned →
      (register_vote post likes dislikes env).goodPinAttempted = false ∧
      (register_vote post likes dislikes env).setPinnedExec = false := by
  intro post likes dislikes env h
  simp [register_vote, goodBoardUsed, h, pyTruthy]

/-- Witness for the amended C2: a concrete pinned post with likes far
above threshold still does not re-attempt promotion. -/
theorem no_promotion_while_pinned_witness :
    (register_vote
        { status := Status.pinned, audienceSize := some 10,
          likeThreshold := some 1, dislikeThreshold := some (-10),
          boardId := some "good", sectionId := none,
          badBoardId := none, badSectionId := none } 99 0
        { savePinOk := true, savePinBadOk := true,
          quarantineChatConfigured := false, forwardOk := true }).goodPinAttempted
      = false ∧
    (register_vote
        { status := Status.pinned, audienceSize := some 10,
          likeThreshold := some 1, dislikeThreshold := some (-10),
          boardId := some "good", sectionId := none,
          badBoardId := none, badSectionId := none } 99 0
        { savePinOk := true, savePinBadOk := true,
          quarantineChatConfigured := false, forwardOk := true }).setPinnedExec
      = false :=
  no_promotion_while_pinned _ 99 0 _ rfl

/-- Claim C3 — quarantine transition: the quarantine branch fires exactly
when the post is not already quarantined and `likes − dislikes` is at
most the channel's configured dislike threshold, a threshold of zero or
unset being replaced by the sentinel `-9999`; once quarantined the branch
never fires again; and with no quarantine destination configured a firing
branch marks the post quarantined directly without forwarding. -/
theorem register_vote_quarantine_transition :
    ∀ (post : PostRow) (likes dislikes : Nat) (env : Env),
      netThresholdUsed post = specNetThreshold post ∧
      ((register_vote post likes dislikes env).quarantineAttempted = true ↔
        (post.status ≠ Status.quarantined ∧
          (likes : Int) - (dislikes : Int) ≤ specNetThreshold post)) ∧
      (post.status = Status.quarantined →
        (register_vote post likes dislikes env).quarantineAttempted = false ∧
        (register_vote post likes dislikes env).setQuarantinedExec = false) ∧
      ((register_vote post likes dislikes env).quarantineAttempted = true →
        env.quarantineChatConfigured = false →
        (register_vote post likes dislikes env).forwardAttempted = false ∧
        (register_vote post likes dislikes env).setQuarantinedExec = true ∧
        (register_vote post likes dislikes env).status = Status.quarantined) := by
  intro post likes dislikes env
  refine ⟨netThresholdUsed_eq_spec post, ?_, ?_, ?_⟩
  · simp [register_vote, netThresholdUsed_eq_spec post, and_comm]
  · intro h
    simp [register_vote, h]
  · intro hq hcfg
    simp only [register_vote, Bool.and_eq_true, decide_eq_true_eq] at hq
    simp [register_vote, hcfg, hq.1, hq.2]

/-- Witness for C3: a post with `dislike_threshold = -3` at 2 likes and
5 dislikes (net −3) fires the quarantine branch; with no quarantine chat
configured it is marked quarantined directly and nothing is forwarded. -/
theorem register_vote_quarantine_transition_witness :
    ((register_vote
        { status := Status.posted, audienceSize := some 10,
          likeThreshold := some 20, dislikeThreshold := some (-3),
          boardId := none, sectionId := none,
          badBoardId := none, badSectionId := none } 2 5
        { savePinOk := false, savePinBadOk := false,
          quarantineChatConfigured := false, forwardOk := false }).forwardAttempted
      = false ∧
    (register_vote
        { status := Status.posted, audienceSize := some 10,
          likeThreshold := some 20, dislikeThreshold := some (-3),
          boardId := none, sectionId := none,
          badBoardId := none, badSectionId := none } 2 5
        { savePinOk := false, savePinBadOk := false,
          quarantineChatConfigured := false, forwardOk := false }).setQuarantinedExec
      = true ∧
    (register_vote
        { status := Status.posted, audienceSize := some 10,
          likeThreshold := some 20, dislikeThreshold := some (-3),
          boardId := none, sectionId := none,
          badBoardId := none, badSectionId := none } 2 5
        { savePinOk := false, savePinBadOk := false,
          quarantineChatConfigured := false, forwardOk := false }).status
      = Status.quarantined) :=
  (register_vote_quarantine_transition
      { status := Status.posted, audienceSize := some 10,
        likeThreshold := some 20, dislikeThreshold := some (-3),
        boardId := none, sectionId := none,
        badBoardId := none, badSectionId := none } 2 5
      { savePinOk := false, savePinBadOk := false,
        quarantineChatConfigured := false, forwardOk := false }).2.2.2
    (by decide) rfl

/-- Claim C4 — error atomicity of the moderation side effects: in a
`register_vote` call where the board pin fails (`_save_pin` returns
`False`, covering both a raising client and no configured client) and
the quarantine forward fails, neither `set_pinned` nor `set_quarantined`
is executed, the stored status is unchanged, and no action is reported,
so the status-gated checks stay eligible for a later vote event. -/
theorem register_vote_side_effect_failure_atomic :
    ∀ (post : PostRow) (likes dislikes : Nat) (env : Env),
      env.savePinOk = false → env.forwardOk = false →
      env.quarantineChatConfigured = true →
      (register_vote post likes dislikes env).setPinnedExec = false ∧
      (register_vote post likes dislikes env).setQuarantinedExec = false ∧
      (register_vote post likes dislikes env).status = post.status ∧
      (register_vote post likes dislikes env).action = none := by
  intro post likes dislikes env hpin hfwd hcfg
  simp [register_vote, hpin, hfwd, hcfg]

/-- Witness for C4: a post over both thresholds whose pin and forward
both fail keeps status `posted` and reports no action. -/
theorem register_vote_side_effect_failure_atomic_witness :
    ((register_vote
        { status := Status.posted, audienceSize := none,
          likeThreshold := some 1, dislikeThreshold := some (-1),
          boardId := some "good", sectionId := none,
          badBoardId := none, badSectionId := none } 1 2
        { savePinOk := false, savePinBadOk := false,
          quarantineChatConfigured := true, forwardOk := false }).setPinnedExec
      = false ∧
    (register_vote
        { status := Status.posted, audienceSize := none,
          likeThreshold := some 1, dislikeThreshold := some (-1),
          boardId := some "good", sectionId := none,
          badBoardId := none, badSectionId := none } 1 2
        { savePinOk := false, savePinBadOk := false,
          quarantineChatConfigured := true, forwardOk := false }).setQuarantinedExec
      = false ∧
    (register_vote
        { status := Status.posted, audienceSize := none,
          likeThreshold := some 1, dislikeThreshold := some (-1),
          boardId := some "good", sectionId := none,
          badBoardId := none, badSectionId := none } 1 2
        { savePinOk := false, savePinBadOk := false,
          quarantineChatConfigured := true, forwardOk := false }).status
      = Status.posted ∧
    (register_vote
        { status := Status.posted, audienceSize := none,
          likeThreshold := some 1, dislikeThreshold := some (-1),
          boardId := some "good", sectionId := none,
          badBoardId := none, badSectionId := none } 1 2
        { savePinOk := false, savePinBadOk := false,
          quarantineChatConfigured := true, forwardOk := false }).action
      = none) :=
  register_vote_side_effect_failure_atomic
    { status := Status.posted, audienceSize := none,
      likeThreshold := some 1, dislikeThreshold := some (-1),
      boardId := some "good", sectionId := none,
      badBoardId := none, badSectionId := none } 1 2
    { savePinOk := false, savePinBadOk := false,
      quarantineChatConfigured := true, forwardOk := false }
    rfl rfl rfl

/-- Claim C8 — when one `register_vote` call satisfies both the
promotion and the quarantine condition and both side effects succeed,
both are executed, but the returned action is `"quarantined"`: the
quarantine outcome overwrites the `"pinned"` action assigned earlier in
the same call, so the caller is never told a promotion also occurred. -/
theorem dual_fire_action_reports_quarantined :
    ∀ (post : PostRow) (likes dislikes : Nat) (env : Env),
      post.status = Status.posted →
      (likes : Int) ≥ likeThresholdUsed post →
      pyTruthy post.boardId = true →
      env.savePinOk = true →
      (likes : Int) - (dislikes : Int) ≤ netThresholdUsed post →
      (env.quarantineChatConfigured = false ∨ env.forwardOk = true) →
      (register_vote post likes dislikes env).goodPinAttempted = true ∧
      (register_vote post likes dislikes env).setPinnedExec = true ∧
      (register_vote post likes dislikes env).quarantineAttempted = true ∧
      (register_vote post likes dislikes env).setQuarantinedExec = true ∧
      (register_vote post likes dislikes env).action = some "quarantined" := by
  intro post likes dislikes env hst hlik hb hpin hnet hfwd
  have hok : (!env.quarantineChatConfigured || env.forwardOk) = true := by
    rcases hfwd with h | h <;> simp [h]
  simp [register_vote, goodBoardUsed, hst, hlik, hb, hpin, hnet, hok]

/-- Witness for C8: at 1 like and 2 dislikes with `like_threshold = 1`
and `dislike_threshold = -1`, both branches fire, both succeed, and the
call reports only `"quarantined"`. -/
theorem dual_fire_action_reports_quarantined_witness :
    ((register_vote
        { status := Status.posted, audienceSize := none,
          likeThreshold := some 1, dislikeThreshold := some (-1),
          boardId := some "good", sectionId := none,
          badBoardId := none, badSectionId := none } 1 2
        { savePinOk := true, savePinBadOk := true,
          quarantineChatConfigured := false, forwardOk := true }).goodPinAttempted
      = true ∧
    (register_vote
        { status := Status.posted, audienceSize := none,
          likeThreshold := some 1, dislikeThreshold := some (-1),
          boardId := some "good", sectionId := none,
          badBoardId := none, badSectionId := none } 1 2
        { savePinOk := true, savePinBadOk := true,
          quarantineChatConfigured := false, forwardOk := true }).setPinnedExec
      = true ∧
    (register_vote
        { status := Status.posted, audienceSize := none,
          likeThreshold := some 1, dislikeThreshold := some (-1),
          boardId := some "good", sectionId := none,
          badBoardId := none, badSectionId := none } 1 2
        { savePinOk := true, savePinBadOk := true,
          quarantineChatConfigured := false, forwardOk := true }).quarantineAttempted
      = true ∧
    (register_vote
        { status := Status.posted, audienceSize := none,
          likeThreshold := some 1, dislikeThreshold := some (-1),
          boardId := some "good", sectionId := none,
          badBoardId := none, badSectionId := none } 1 2
        { savePinOk := true, savePinBadOk := true,
          quarantineChatConfigured := false, forwardOk := true }).setQuarantinedExec
      = true ∧
    (register_vote
        { status := Status.posted, audienceSize := none,
          likeThreshold := some 1, dislikeThreshold := some (-1),
          boardId := some "good", sectionId := none,
          badBoardId := none, badSectionId := none } 1 2
        { savePinOk := true, savePinBadOk := true,
          quarantineChatConfigured := false, forwardOk := true }).action
      = some "quarantined") :=
  dual_fire_action_reports_quarantined
    { status := Status.posted, audienceSize := none,
      likeThreshold := some 1, dislikeThreshold := some (-1),
      boardId := some "good", sectionId := none,
      badBoardId := none, badSectionId := none } 1 2
    { savePinOk := true, savePinBadOk := true,
      quarantineChatConfigured := false, forwardOk := true }
    rfl (by decide) (by decide) rfl (by decide) (Or.inl rfl)

/-- Claim C9 — the bad-board demotion has no once-only guard: in every
`register_vote` call it is attempted exactly when aggregate dislikes
reach the dislike-count threshold and a bad board is configured,
independently of the post's current status, and it never changes the
post's status (the status moves only when `set_pinned` or
`set_quarantined` executes). -/
theorem bad_board_demotion_unguarded :
    ∀ (post : PostRow) (likes dislikes : Nat) (env : Env),
      ((register_vote post likes dislikes env).badPinAttempted = true ↔
        ((dislikes : Int) ≥ dislikeThresholdUsed post ∧
          pyTruthy post.badBoardId = true)) ∧
      (∀ st : Status,
        (register_vote { post with status := st } likes dislikes env).badPinAttempted
          = (register_vote post likes dislikes env).badPinAttempted) ∧
      ((register_vote post likes dislikes env).setPinnedExec = false →
        (register_vote post likes dislikes env).setQuarantinedExec = false →
        (register_vote post likes dislikes env).status = post.status) := by
  intro post likes dislikes env
  refine ⟨?_, ?_, ?_⟩
  · simp [register_vote]
  · intro st
    simp [register_vote, dislikeThresholdUsed, manualDislike, dynamicThreshold]
  · intro hpin hquar
    simp only [register_vote] at hpin hquar ⊢
    rw [hquar, hpin]
    simp

/-- Witness for C9: a post whose bad board is configured and whose
dislikes cross the count threshold attempts the bad pin while its status
stays `posted`. -/
theorem bad_board_demotion_unguarded_witness :
    ((register_vote
        { status := Status.posted, audienceSize := none,
          likeThreshold := some 5, dislikeThreshold := some 0,
          boardId := none, sectionId := none,
          badBoardId := some "bad", badSectionId := none } 0 3
        { savePinOk := true, savePinBadOk := true,
          quarantineChatConfigured := false, forwardOk := true }).badPinAttempted
      = true ∧
    (register_vote
        { status := Status.posted, audienceSize := none,
          likeThreshold := some 5, dislikeThreshold := some 0,
          boardId := none, sectionId := none,
          badBoardId := some "bad", badSectionId := none } 0 3
        { savePinOk := true, savePinBadOk := true,
          quarantineChatConfigured := false, forwardOk := true }).status
      = Status.posted) :=
  ⟨((bad_board_demotion_unguarded
      { status := Status.posted, audienceSize := none,
        likeThreshold := some 5, dislikeThreshold := some 0,
        boardId := none, sectionId := none,
        badBoardId := some "bad", badSectionId := none } 0 3
      { savePinOk := true, savePinBadOk := true,
        quarantineChatConfigured := false, forwardOk := true }).1).mpr
      ⟨by decide, by decide⟩,
   (bad_board_demotion_unguarded
      { status := Status.posted, audienceSize := none,
        likeThreshold := some 5, dislikeThreshold := some 0,
        boardId := none, sectionId := none,
        badBoardId := some "bad", badSectionId := none } 0 3
      { savePinOk := true, savePinBadOk := true,
        quarantineChatConfigured := false, forwardOk := true }).2.2
      (by decide) (by decide)⟩

lemma aggregate_component (q : Int → Bool) (s : List (String × Int)) :
    (apply_votes [] s).countP (fun r => q r.2) =
      (s.map Prod.fst).dedup.countP (fun u =>
        match lastVote s u with | some w => q w | none => false) := by
  have hnil : (([] : List (String × Int)).map Prod.fst).Nodup := by simp
  have hnd : ((apply_votes [] s).map Prod.fst).Nodup :=
    nodup_keys_apply_votes s [] hnil
  rw [countP_eq_keys_countP q _ hnd]
  have hpred : (fun u =>
      match lookupVal (apply_votes [] s) u with
      | some w => q w
      | none => false) =
      (fun u => match lastVote s u with | some w => q w | none => false) := by
    funext u
    have h := lookupVal_apply_votes s [] u
    rw [h]
    cases lastVote s u <;> simp [lookupVal]
  rw [hpred]
  apply countP_eq_of_nodup_mem_iff _ hnd (List.nodup_dedup _)
  intro x
  rw [List.mem_dedup]
  have h := mem_keys_apply_votes s [] x
  simpa using h

/-- Claim C5 — vote aggregation is keyed by voter with last-write-wins
and is order-independent: the stored value for each voter after
replaying a vote sequence is the voter's latest vote; the aggregates
equal the number of distinct voters whose latest vote is positive
(likes) and negative (dislikes); and replaying any permutation of a
sequence of votes by pairwise-distinct voters yields the same
aggregates. -/
theorem vote_aggregation_order_independent :
    (∀ (s : List (String × Int)) (u : String),
        lookupVal (apply_votes [] s) u = lastVote s u) ∧
    (∀ s : List (String × Int),
        aggregate_votes (apply_votes [] s) =
          ((s.map Prod.fst).dedup.countP (fun u =>
              match lastVote s u with
              | some w => decide (0 < w)
              | none => false),
           (s.map Prod.fst).dedup.countP (fun u =>
              match lastVote s u with
              | some w => decide (w < 0)
              | none => false))) ∧
    (∀ s1 s2 : List (String × Int),
        (s1.map Prod.fst).Nodup → s1.Perm s2 →
        aggregate_votes (apply_votes [] s1) =
          aggregate_votes (apply_votes [] s2)) := by
  refine ⟨?_, ?_, ?_⟩
  · intro s u
    have h := lookupVal_apply_votes s [] u
    rw [h]
    cases lastVote s u <;> simp [lookupVal]
  · intro s
    unfold aggregate_votes
    rw [aggregate_component (fun w => decide (0 < w)) s,
      aggregate_component (fun w => decide (w < 0)) s]
  · intro s1 s2 hnd hperm
    have hd1 : ∀ u ∈ s1.map Prod.fst,
        u ∉ (([] : List (String × Int)).map Prod.fst) := by simp
    have h1 : apply_votes [] s1 = s1 := by
      have := apply_votes_eq_append s1 [] hd1 hnd
      simpa using this
    have hnd2 : (s2.map Prod.fst).Nodup :=
      ((hperm.map Prod.fst).nodup_iff).mp hnd
    have hd2 : ∀ u ∈ s2.map Prod.fst,
        u ∉ (([] : List (String × Int)).map Prod.fst) := by simp
    have h2 : apply_votes [] s2 = s2 := by
      have := apply_votes_eq_append s2 [] hd2 hnd2
      simpa using this
    rw [h1, h2]
    unfold aggregate_votes
    rw [hperm.countP_eq, hperm.countP_eq]

/-- Witness for C5: two orderings of votes by the distinct voters
`"a"`, `"b"`, `"c"` produce the same aggregates `(2, 1)`. -/
theorem vote_aggregation_order_independent_witness :
    aggregate_votes
        (apply_votes [] [("a", (1 : Int)), ("b", -1), ("c", 1)]) =
      aggregate_votes
        (apply_votes [] [("c", (1 : Int)), ("a", 1), ("b", -1)]) :=
  vote_aggregation_order_independent.2.2
    [("a", (1 : Int)), ("b", -1), ("c", 1)]
    [("c", (1 : Int)), ("a", 1), ("b", -1)]
    (by decide) (by decide)

/-- Claim C6 counterexample — per-channel failure isolation does not
hold for storage-layer errors: with channel 1 hitting a storage failure
and channel 2 healthy, the tick aborts with no channel processed, while
the same tick without channel 1 processes channel 2. The exception is
only caught at the `_runner` (whole-tick) level. -/
theorem storage_failure_aborts_tick :
    tick true
        [{ id := 1, enabled := true, cooldownOk := true,
           sourceConfigured := true, sourceInitOk := true,
           storageOk := false },
         { id := 2, enabled := true, cooldownOk := true,
           sourceConfigured := true, sourceInitOk := true,
           storageOk := true }] = ([], true) ∧
    tick true
        [{ id := 2, enabled := true, cooldownOk := true,
           sourceConfigured := true, sourceInitOk := true,
           storageOk := true }] = ([2], false) := by
  decide

/-- Claim C6 amended — only content-source initialization failures (and
fetch failures, which `_fetch_items` converts to an empty batch) are
isolated per channel; a storage-layer error raised while processing one
channel propagates out of `tick`, so the remaining channels of that tick
are not processed (the runner catches the exception, so later ticks
proceed). Formally: a channel whose source initialization fails is
skipped transparently, while a reached channel with a storage failure
ends the tick with exactly the channels before it processed. -/
theorem tick_storage_failure_stops_rest :
    (∀ (w : Bool) (l1 l2 : List ChanSpec) (c : ChanSpec),
      c.enabled = true → w = true → c.cooldownOk = true →
      c.sourceConfigured = true → c.sourceInitOk = true →
      c.storageOk = false →
      (tick w l1).2 = false →
      tick w (l1 ++ c :: l2) = ((tick w l1).1, true)) ∧
    (∀ (w : Bool) (l1 l2 : List ChanSpec) (c : ChanSpec),
      c.sourceInitOk = false →
      tick w (l1 ++ c :: l2) = tick w (l1 ++ l2)) := by
  constructor
  · intro w l1 l2 c hen hw hcool hcfg hinit hstore
    induction l1 with
    | nil =>
      intro _
      simp [tick, hen, hw, hcool, hcfg, hinit, hstore]
    | cons d l1 ih =>
      intro habort
      rw [List.cons_append]
      by_cases hg : (!d.enabled || !w || !d.cooldownOk
          || !d.sourceConfigured || !d.sourceInitOk) = true
      · have hskip1 : tick w (d :: l1) = tick w l1 := by simp [tick, hg]
        have hskip2 : tick w (d :: (l1 ++ c :: l2)) = tick w (l1 ++ c :: l2) := by
          simp [tick, hg]
        rw [hskip1] at habort
        rw [hskip2, ih habort, hskip1]
      · by_cases hs : (!d.storageOk) = true
        · exfalso
          have habt : tick w (d :: l1) = ([], true) := by simp [tick, hg, hs]
          rw [habt] at habort
          simp at habort
        · have hd1 : tick w (d :: l1) =
              (d.id :: (tick w l1).1, (tick w l1).2) := by
            simp [tick, hg, hs]
          have hd2 : tick w (d :: (l1 ++ c :: l2)) =
              (d.id :: (tick w (l1 ++ c :: l2)).1,
               (tick w (l1 ++ c :: l2)).2) := by
            simp [tick, hg, hs]
          rw [hd1] at habort
          rw [hd2, ih habort, hd1]
  · intro w l1 l2 c hinit
    induction l1 with
    | nil => simp [tick, hinit]
    | cons d l1 ih =>
      rw [List.cons_append, List.cons_append]
      by_cases hg : (!d.enabled || !w || !d.cooldownOk
          || !d.sourceConfigured || !d.sourceInitOk) = true
      · have hskip1 : tick w (d :: (l1 ++ c :: l2)) = tick w (l1 ++ c :: l2) := by
          simp [tick, hg]
        have hskip2 : tick w (d :: (l1 ++ l2)) = tick w (l1 ++ l2) := by
          simp [tick, hg]
        rw [hskip1, hskip2, ih]
      · by_cases hs : (!d.storageOk) = true
        · have habt1 : tick w (d :: (l1 ++ c :: l2)) = ([], true) := by
            simp [tick, hg, hs]
          have habt2 : tick w (d :: (l1 ++ l2)) = ([], true) := by
            simp [tick, hg, hs]
          rw [habt1, habt2]
        · have hd1 : tick w (d :: (l1 ++ c :: l2)) =
              (d.id :: (tick w (l1 ++ c :: l2)).1,
               (tick w (l1 ++ c :: l2)).2) := by
            simp [tick, hg, hs]
          have hd2 : tick w (d :: (l1 ++ l2)) =
              (d.id :: (tick w (l1 ++ l2)).1, (tick w (l1 ++ l2)).2) := by
            simp [tick, hg, hs]
          rw [hd1, hd2, ih]

/-- Witness for the amended C6: one healthy channel, then a channel with
a storage failure, then another healthy channel — the tick processes
only the first and aborts. -/
theorem tick_storage_failure_stops_rest_witness :
    tick true
        ([{ id := 1, enabled := true, cooldownOk := true,
            sourceConfigured := true, sourceInitOk := true,
            storageOk := true }] ++
          { id := 9, enabled := true, cooldownOk := true,
            sourceConfigured := true, sourceInitOk := true,
            storageOk := false } ::
          [{ id := 2, enabled := true, cooldownOk := true,
             sourceConfigured := true, sourceInitOk := true,
             storageOk := true }]) =
      ((tick true
          [{ id := 1, enabled := true, cooldownOk := true,
             sourceConfigured := true, sourceInitOk := true,
             storageOk := true }]).1, true) :=
  tick_storage_failure_stops_rest.1 true
    [{ id := 1, enabled := true, cooldownOk := true,
       sourceConfigured := true, sourceInitOk := true,
       storageOk := true }]
    [{ id := 2, enabled := true, cooldownOk := true,
       sourceConfigured := true, sourceInitOk := true,
       storageOk := true }]
    { id := 9, enabled := true, cooldownOk := true,
      sourceConfigured := true, sourceInitOk := true,
      storageOk := false }
    rfl rfl rfl rfl rfl rfl (by decide)

/-- Claim C7 — window gating with midnight wrap: a wrapping range
(start hour greater than end hour) is eligible exactly when the current
hour is at least the start or below the end; a non-wrapping range
exactly when the hour lies in `[start, end)`; with window 22–6, hour 23
is eligible and hour 10 is not. -/
theorem window_gating_midnight_wrap :
    (∀ s e h : Nat, e < s →
      (is_within_window s e h = true ↔ (h ≥ s ∨ h < e))) ∧
    (∀ s e h : Nat, s ≤ e →
      (is_within_window s e h = true ↔ (s ≤ h ∧ h < e))) ∧
    is_within_window 22 6 23 = true ∧
    is_within_window 22 6 10 = false := by
  refine ⟨?_, ?_, by decide, by decide⟩
  · intro s e h hlt
    have hns : ¬s ≤ e := by omega
    simp [is_within_window, hns]
  · intro s e h hle
    simp [is_within_window, hle]

/-- Witness for C7: the wrapping-range characterization applied at the
concrete window 22–6 and hour 23. -/
theorem window_gating_midnight_wrap_witness :
    is_within_window 22 6 23 = true ↔ (23 ≥ 22 ∨ 23 < 6) :=
  window_gating_midnight_wrap.1 22 6 23 (by decide)

lemma find?_content_key (l : List ContentRec) (rec : ContentRec)
    (hnd : (l.map fun r => (r.sourceType, r.sourceId)).Nodup)
    (hmem : rec ∈ l) :
    l.find? (fun r =>
        r.sourceType == rec.sourceType && r.sourceId == rec.sourceId) =
      some rec := by
  induction l with
  | nil => cases hmem
  | cons h t ih =>
    simp only [List.map_cons, List.nodup_cons] at hnd
    obtain ⟨hk, hnd'⟩ := hnd
    rcases List.mem_cons.mp hmem with he | ht
    · subst he
      simp [List.find?_cons]
    · have hpred :
          (h.sourceType == rec.sourceType && h.sourceId == rec.sourceId)
            = false := by
        by_contra hc
        rw [Bool.not_eq_false, Bool.and_eq_true, beq_iff_eq, beq_iff_eq] at hc
        exact hk (List.mem_map.mpr ⟨rec, ht, by rw [hc.1, hc.2]⟩)
      rw [show List.find? (fun r =>
            r.sourceType == rec.sourceType && r.sourceId == rec.sourceId)
            (h :: t) =
          List.find? (fun r =>
            r.sourceType == rec.sourceType && r.sourceId == rec.sourceId) t
          from by simp [List.find?_cons, hpred]]
      exact ih hnd' ht

/-- Claim C10 — re-enqueueing an already-known `(channel, content item)`
pair returns `False` and leaves the existing post row untouched,
whatever its status (`get_unposted_item` matches rows of any status,
including `failed`, and `create_post` is only reached when no row
exists), so the queue-refill loop never automatically re-queues a failed
post. -/
theorem enqueue_existing_post_unchanged :
    ∀ (db : DBState) (ch : Nat) (item : Item) (rec : ContentRec)
      (p : PostRec),
      (db.items.map fun r => (r.sourceType, r.sourceId)).Nodup →
      rec ∈ db.items →
      rec.sourceType = item.sourceType → rec.sourceId = item.sourceId →
      p ∈ db.posts → p.channelId = ch → p.contentItemId = rec.id →
      (enqueue_item db ch item).1 = false ∧
      (enqueue_item db ch item).2.posts = db.posts := by
  intro db ch item rec p hnd hrec hst hsi hp hpc hpi
  have hfind : db.items.find? (fun r =>
      r.sourceType == item.sourceType && r.sourceId == item.sourceId) =
      some rec := by
    have h := find?_content_key db.items rec hnd hrec
    rw [hst, hsi] at h
    exact h
  by_cases hmedia : (!pyTruthy item.mediaUrl && !pyTruthy item.videoUrl) = true
  · simp [enqueue_item, hmedia]
  · have hpost : db.posts.find? (fun q =>
        q.channelId == ch && q.contentItemId == rec.id) ≠ none := by
      intro hnone
      have h := List.find?_eq_none.mp hnone p hp
      simp [hpc, hpi] at h
    cases hq : db.posts.find? (fun q =>
        q.channelId == ch && q.contentItemId == rec.id) with
    | none => exact absurd hq hpost
    | some q =>
      simp [enqueue_item, hmedia, upsert_content_item, hfind,
        get_unposted_item, hq]

/-- Witness for C10: a database holding one content item and a `failed`
post row for it; re-enqueueing the same item returns `False` and leaves
the `failed` row as it was. -/
theorem enqueue_existing_post_unchanged_witness :
    ((enqueue_item
        { items := [{ id := 7, sourceType := "t", sourceId := "s",
                      payload := { sourceType := "t", sourceId := "s",
                                   mediaUrl := some "u", videoUrl := none } }],
          posts := [{ id := 3, channelId := 1, contentItemId := 7,
                      status := Status.failed }],
          nextItemId := 8, nextPostId := 4 } 1
        { sourceType := "t", sourceId := "s",
          mediaUrl := some "u", videoUrl := none }).1 = false ∧
    (enqueue_item
        { items := [{ id := 7, sourceType := "t", sourceId := "s",
                      payload := { sourceType := "t", sourceId := "s",
                                   mediaUrl := some "u", videoUrl := none } }],
          posts := [{ id := 3, channelId := 1, contentItemId := 7,
                      status := Status.failed }],
          nextItemId := 8, nextPostId := 4 } 1
        { sourceType := "t", sourceId := "s",
          mediaUrl := some "u", videoUrl := none }).2.posts =
      [{ id := 3, channelId := 1, contentItemId := 7,
         status := Status.failed }]) :=
  enqueue_existing_post_unchanged
    { items := [{ id := 7, sourceType := "t", sourceId := "s",
                  payload := { sourceType := "t", sourceId := "s",
                               mediaUrl := some "u", videoUrl := none } }],
      posts := [{ id := 3, channelId := 1, contentItemId := 7,
                  status := Status.failed }],
      nextItemId := 8, nextPostId := 4 } 1
    { sourceType := "t", sourceId := "s",
      mediaUrl := some "u", videoUrl := none }
    { id := 7, sourceType := "t", sourceId := "s",
      payload := { sourceType := "t", sourceId := "s",
                   mediaUrl := some "u", videoUrl := none } }
    { id := 3, channelId := 1, contentItemId := 7, status := Status.failed }
    (by decide) (by decide) rfl rfl (by decide) rfl rfl

end Memebot
